import Mathlib

/-!
Verification development for `set_port_descriptions_from_csv.py`.

The script reads a CSV of `host,interface,description` rows, groups the rows
by host, configures every host over an SSH session (netmiko) from a bounded
thread pool, and prints a per-host report followed by a summary.

Shallow embedding conventions:
  * Python strings are Lean `String`s; the Python string methods used by the
    script (`strip`, `lower`, `splitlines`, `startswith`) are re-implemented
    structurally over `String.data` so that the kernel can evaluate them
    (`pyStrip`, `pyLower`, `pySplitLines`, `pyStartsWith`).
  * The netmiko device session is an oracle `DeviceBehavior`: each operation
    either succeeds (`Except.ok`) or raises (`Except.error msg`).
  * Every device operation performed by a run is recorded in a `List DEvent`
    trace, so resource properties (session opened / closed) are statements
    about the trace.
  * The thread pool is modelled by its observable outcome: one
    `configure_switch` call per plan entry, results keyed by host
    (completion order is irrelevant because the reporter re-sorts by host).
-/

/-! ### Python string primitives, kernel-executable -/

/-- Characters-level trim: drop whitespace at both ends (Python `str.strip()`). -/
def trimChars (l : List Char) : List Char :=
  ((l.dropWhile Char.isWhitespace).reverse.dropWhile Char.isWhitespace).reverse

/-- Python `s.strip()`. -/
def pyStrip (s : String) : String := ⟨trimChars s.data⟩

/-- Python `s.lower()` (ASCII, which covers every literal the script compares). -/
def pyLower (s : String) : String := ⟨s.data.map Char.toLower⟩

/-- Split a character list at newline characters. -/
def splitNL : List Char → List (List Char)
  | [] => [[]]
  | c :: cs =>
    if c == '\n' then [] :: splitNL cs
    else
      match splitNL cs with
      | [] => [[c]]
      | l :: ls => (c :: l) :: ls

/-- Python `s.splitlines()` for newline-separated text. -/
def pySplitLines (s : String) : List String := (splitNL s.data).map String.mk

/-- `charsLead pat l` is true when `pat` occurs at the front of `l`. -/
def charsLead : List Char → List Char → Bool
  | [], _ => true
  | _ :: _, [] => false
  | c :: cs, d :: ds => c == d && charsLead cs ds

/-- Python `s.startswith(pat)`. -/
def pyStartsWith (s pat : String) : Bool := charsLead pat.data s.data

/-- Code-point lexicographic comparison on character lists. -/
def lexLe : List Char → List Char → Bool
  | [], _ => true
  | _ :: _, [] => false
  | c :: cs, d :: ds =>
    c.val.toNat < d.val.toNat || (c == d && lexLe cs ds)

/-- Python `s1 <= s2` on strings, used by `sorted(...)`. -/
def strLe (a b : String) : Bool := lexLe a.data b.data

/-! ### Loader: CSV rows to the per-host plan (script lines 54-81) -/

/-- One CSV data row as produced by `csv.DictReader`. -/
structure CsvRow where
  host : String
  iface : String
  descr : String
deriving DecidableEq, Repr

/-- `host -> ordered list of (interface, description)`, insertion ordered. -/
abbrev HostPlan := List (String × List (String × String))

/-- The condition under which the loader skips a row
(`if not host or not iface or not desc: continue`), on the trimmed fields. -/
def row_skip (r : CsvRow) : Bool :=
  pyStrip r.host == "" || pyStrip r.iface == "" || pyStrip r.descr == ""

/-- The rows the loader keeps. -/
def usableRows (rows : List CsvRow) : List CsvRow :=
  rows.filter (fun r => !(row_skip r))

/-- `devices_interfaces[host].append((iface, desc))` on a `defaultdict(list)`:
append to the host's list, creating the entry at the end on first use. -/
def appendEntry (plan : HostPlan) (host : String) (pr : String × String) : HostPlan :=
  match plan with
  | [] => [(host, [pr])]
  | (h, l) :: rest =>
    if h == host then (h, l ++ [pr]) :: rest
    else (h, l) :: appendEntry rest host pr

/-- One iteration of the CSV loading loop (script lines 61-77). -/
def load_step (plan : HostPlan) (r : CsvRow) : HostPlan :=
  if row_skip r then plan
  else appendEntry plan (pyStrip r.host) (pyStrip r.iface, pyStrip r.descr)

/-- The whole CSV loading loop: fold the rows into an empty plan. -/
def load_plan (rows : List CsvRow) : HostPlan :=
  rows.foldl load_step []

/-- Look a host up in a plan (first entry with that key). -/
def planLookup (plan : HostPlan) (h : String) : List (String × String) :=
  match plan with
  | [] => []
  | (k, l) :: rest => if k == h then l else planLookup rest h

/-! ### Configurator (script lines 84-184) -/

/-- Process configuration: the three credential values loaded from `.env`
(`None` when the variable is absent). -/
structure Env where
  username : Option String
  password : Option String
  secret : Option String

/-- Python truthiness of an optional string (`if SECRET:`): `None` and the
empty string are falsy. -/
def truthy : Option String → Bool
  | none => false
  | some s => !(s == "")

/-- The device-session oracle: result of each netmiko operation for one host. -/
structure DeviceBehavior where
  connect : Except String Unit
  enable : Except String Unit
  sendConfigSet : List String → Except String Unit
  saveConfig : Except String Unit
  sendCommand : String → Except String String

/-- Observable device-session events, recorded in traces. -/
inductive DEvent where
  | connectAttempt : DEvent
  | connectOk : DEvent
  | enable : DEvent
  | sendConfig : List String → DEvent
  | save : DEvent
  | query : String → DEvent
  | disconnect : DEvent
deriving DecidableEq, Repr

/-- The description-setting line chosen for one CSV description value
(script lines 126-129): the sentinel `blank` (case-insensitive, after a
strip) clears the description, anything else sets it verbatim. -/
def desc_cmd (desc : String) : String :=
  if pyLower (pyStrip desc) == "blank" then "no description"
  else "description " ++ desc

/-- The configuration batch built by the loop of script lines 121-129:
per pair, an `interface <iface>` line then the description line. -/
def build_config_cmds (entries : List (String × String)) : List String :=
  entries.foldl
    (fun cmds p => (cmds ++ ["interface " ++ p.1]) ++ [desc_cmd p.2]) []

/-- The per-interface verification command (script line 148-151). -/
def show_cmd (iface : String) : String :=
  "show interface " ++ iface ++ " description"

/-- The filter of script lines 153-166: keep a line unless it is blank after
stripping or its stripped form starts with `interface` (case-insensitive
via `lower`; the script lowercases the stripped line before the check). -/
def keepLine (line : String) : Bool :=
  !(pyStrip line == "") && !(pyStartsWith (pyLower (pyStrip line)) "interface")

/-- Lines kept from one verification command output: the output is stripped,
split into lines, and filtered by `keepLine` (original lines are kept). -/
def query_lines (out : String) : List String :=
  (pySplitLines (pyStrip out)).filter keepLine

/-- The verification loop (script lines 146-166): query each interface in
order; any raising query aborts the loop with that error. -/
def verifyRun (dev : DeviceBehavior) :
    List (String × String) → Except String (List String) × List DEvent
  | [] => (Except.ok [], [])
  | p :: rest =>
    match dev.sendCommand (show_cmd p.1) with
    | Except.error e => (Except.error e, [DEvent.query (show_cmd p.1)])
    | Except.ok out =>
      match verifyRun dev rest with
      | (Except.ok ls, tr) =>
        (Except.ok (query_lines out ++ ls), DEvent.query (show_cmd p.1) :: tr)
      | (Except.error e, tr) =>
        (Except.error e, DEvent.query (show_cmd p.1) :: tr)

/-- First line of the verification block (script line 144). -/
def header_line (host : String) : String :=
  ">>> Verifying interface descriptions on " ++ host ++ ":"

/-- The failure message format (script line 179). -/
def err_text (host e : String) : String :=
  "XXX ERROR on " ++ host ++ ": " ++ e

/-- The success marker printed by the reporter (script line 218). -/
def success_line (host : String) : String := ">>> SUCCESS: " ++ host

/-- The body of the `try` block after a successful connect (script lines
106-175): optional enable, push the batch, save, verify, and return the
joined verification block; the first raising step aborts with its error. -/
def bodyRun (env : Env) (dev : DeviceBehavior) (host : String)
    (entries : List (String × String)) : Except String String × List DEvent :=
  let en : Except String Unit × List DEvent :=
    if truthy env.secret then (dev.enable, [DEvent.enable]) else (Except.ok (), [])
  match en with
  | (Except.error e, tr) => (Except.error e, tr)
  | (Except.ok _, tr) =>
    let cmds := build_config_cmds entries
    match dev.sendConfigSet cmds with
    | Except.error e => (Except.error e, tr ++ [DEvent.sendConfig cmds])
    | Except.ok _ =>
      match dev.saveConfig with
      | Except.error e => (Except.error e, tr ++ [DEvent.sendConfig cmds, DEvent.save])
      | Except.ok _ =>
        match verifyRun dev entries with
        | (Except.ok ls, vtr) =>
          (Except.ok (String.intercalate "\n" (header_line host :: ls)),
           tr ++ [DEvent.sendConfig cmds, DEvent.save] ++ vtr)
        | (Except.error e, vtr) =>
          (Except.error e, tr ++ [DEvent.sendConfig cmds, DEvent.save] ++ vtr)

/-- The per-host outcome tuple `(ok, host, text)` returned by the task. -/
structure ConfigResult where
  ok : Bool
  host : String
  text : String
deriving DecidableEq, Repr

/-- `configure_switch` (script lines 84-184): connect; on success run the body
under `try/except/finally` — any error becomes a failure outcome carrying
`err_text`, and the `finally` disconnects exactly when a connection was
obtained (`if conn: conn.disconnect()`); when `ConnectHandler` itself raises,
`conn` is still `None` and nothing is disconnected. -/
def configure_switch (env : Env) (dev : DeviceBehavior) (host : String)
    (entries : List (String × String)) : ConfigResult × List DEvent :=
  match dev.connect with
  | Except.error e =>
    ({ ok := false, host := host, text := err_text host e },
     [DEvent.connectAttempt])
  | Except.ok _ =>
    match bodyRun env dev host entries with
    | (Except.ok text, tr) =>
      ({ ok := true, host := host, text := text },
       DEvent.connectAttempt :: DEvent.connectOk :: (tr ++ [DEvent.disconnect]))
    | (Except.error e, tr) =>
      ({ ok := false, host := host, text := err_text host e },
       DEvent.connectAttempt :: DEvent.connectOk :: (tr ++ [DEvent.disconnect]))

/-- The verification block of a fully successful run, spelled per interface:
for each pair in order, the kept lines of that interface's query output. -/
def verified_lines (dev : DeviceBehavior) : List (String × String) → List String
  | [] => []
  | p :: rest =>
    (match dev.sendCommand (show_cmd p.1) with
     | Except.ok out => query_lines out
     | Except.error _ => []) ++ verified_lines dev rest

/-! ### Dispatcher, reporter, summary, main (script lines 193-236) -/

/-- The result entry one worker contributes: `results[host] = (ok, text)`. -/
def host_outcome (env : Env) (devs : String → DeviceBehavior)
    (he : String × List (String × String)) : String × (Bool × String) :=
  ((he.1, (((configure_switch env (devs he.1) he.1 he.2).1).ok,
           ((configure_switch env (devs he.1) he.1 he.2).1).text)))

/-- The dispatcher: one `configure_switch` task per plan entry, results keyed
by host (completion order does not matter — the reporter sorts). -/
def run_all (env : Env) (devs : String → DeviceBehavior) (plan : HostPlan) :
    List (String × (Bool × String)) :=
  plan.map (host_outcome env devs)

/-- All device events of the whole dispatch. -/
def dispatch_trace (env : Env) (devs : String → DeviceBehavior)
    (plan : HostPlan) : List DEvent :=
  (plan.map (fun he => (configure_switch env (devs he.1) he.1 he.2).2)).flatten

/-- First-match association lookup (Python `results[host]`). -/
def alookup {α : Type} : List (String × α) → String → Option α
  | [], _ => none
  | (k, v) :: rest, key => if k == key then some v else alookup rest key

/-- Insert into a lexicographically sorted list of hosts. -/
def insertSorted (x : String) : List String → List String
  | [] => [x]
  | y :: ys => if strLe x y then x :: y :: ys else y :: insertSorted x ys

/-- Python `sorted(results)`: the hosts in lexicographic order. -/
def sort_hosts (results : List (String × (Bool × String))) : List String :=
  (results.map Prod.fst).foldr insertSorted []

/-- The lines the reporter prints for one host (script lines 210-219):
the text block, the success marker only when the host succeeded, and a
blank separator line. -/
def report_block (results : List (String × (Bool × String))) (h : String) :
    List String :=
  match alookup results h with
  | some (ok, text) => text :: ((if ok then [success_line h] else []) ++ [""])
  | none => []

/-- The grouped per-host output, hosts in sorted order. -/
def report_lines (results : List (String × (Bool × String))) : List String :=
  ((sort_hosts results).map (report_block results)).flatten

/-- The final summary (script lines 222-234). -/
structure Summary where
  total : Nat
  successes : Nat
  failures : Nat
  failedHosts : List String
deriving DecidableEq, Repr

/-- Build the summary from the results. -/
def summarize (results : List (String × (Bool × String))) : Summary :=
  { total := results.length
  , successes := ((results.filter (fun r => r.2.1)).map Prod.fst).length
  , failures := ((results.filter (fun r => !r.2.1)).map Prod.fst).length
  , failedHosts := (results.filter (fun r => !r.2.1)).map Prod.fst }

/-- The import-time credential check (script lines 33-34): `not USERNAME or
not PASSWORD` aborts the process. -/
def creds_ok (env : Env) : Bool := truthy env.username && truthy env.password

/-- The whole run: credential check, CSV load, empty-plan abort, dispatch.
Returns the fatal-abort error or the results, plus every device event that
was performed. -/
def main_run (env : Env) (devs : String → DeviceBehavior) (rows : List CsvRow) :
    Except String (List (String × (Bool × String))) × List DEvent :=
  if !(creds_ok env) then
    (Except.error "Missing NET_USER or NET_PASS. Create a .env file", [])
  else
    match load_plan rows with
    | [] => (Except.error "No valid rows found in CSV. Check file contents.", [])
    | plan@(_ :: _) => (Except.ok (run_all env devs plan), dispatch_trace env devs plan)

/-! ### Spec-side definitions for the refinement claims -/

/-- Modelled from the spec: "for each pair, emit an enter-interface-context
line followed by a description-setting line — if the description value
case-insensitively equals the literal `blank`, emit a clear-description line
instead of setting text". -/
def spec_lines_for_pair (p : String × String) : List String :=
  ["interface " ++ p.1,
   if pyLower p.2 == "blank" then "no description" else "description " ++ p.2]

/-- Modelled from the spec: the whole batch is the concatenation of the
per-pair line groups, pairs taken in order. -/
def spec_batch : List (String × String) → List String
  | [] => []
  | p :: rest => spec_lines_for_pair p ++ spec_batch rest

/-! ### Concrete instances used by witnesses and counterexamples -/

/-- A process environment with both required credentials and no enable secret. -/
def env0 : Env := { username := some "admin", password := some "pw", secret := none }

/-- A device on which every operation succeeds; queries answer with a header
line followed by one status line. -/
def devGood : DeviceBehavior :=
  { connect := Except.ok ()
  , enable := Except.ok ()
  , sendConfigSet := fun _ => Except.ok ()
  , saveConfig := Except.ok ()
  , sendCommand := fun _ =>
      Except.ok "Interface Status Protocol Description\nGi1/0/1 up up PC-01" }

/-- A device whose session open itself raises. -/
def devFail : DeviceBehavior :=
  { connect := Except.error "TCP connection to device failed"
  , enable := Except.ok ()
  , sendConfigSet := fun _ => Except.ok ()
  , saveConfig := Except.ok ()
  , sendCommand := fun _ => Except.ok "" }

/-! ### Loader lemmas -/

theorem planLookup_appendEntry (plan : HostPlan) (host : String)
    (pr : String × String) (h : String) :
    planLookup (appendEntry plan host pr) h =
      if host = h then planLookup plan h ++ [pr] else planLookup plan h := by
  induction plan with
  | nil =>
    by_cases hh : host = h <;> simp [appendEntry, planLookup, hh]
  | cons kl rest ih =>
    obtain ⟨k, l⟩ := kl
    by_cases hk : k = host
    · subst hk
      by_cases hh : k = h <;> simp [appendEntry, planLookup, hh]
    · by_cases hh : k = h
      · subst hh
        have : ¬ host = k := fun he => hk he.symm
        simp [appendEntry, planLookup, hk, this]
      · simp [appendEntry, planLookup, hk, hh, ih]

theorem load_plan_fold_lookup (rows : List CsvRow) (plan : HostPlan) (h : String) :
    planLookup (rows.foldl load_step plan) h =
      planLookup plan h ++
        (((usableRows rows).filter (fun r => pyStrip r.host == h)).map
          (fun r => (pyStrip r.iface, pyStrip r.descr))) := by
  induction rows generalizing plan with
  | nil => simp [usableRows]
  | cons r rest ih =>
    simp only [List.foldl_cons]
    rw [ih]
    by_cases hs : row_skip r
    · simp [load_step, hs, usableRows, List.filter_cons]
    · by_cases hh : pyStrip r.host = h
      · simp [load_step, hs, usableRows, List.filter_cons, hh,
              planLookup_appendEntry]
      · simp [load_step, hs, usableRows, List.filter_cons, hh,
              planLookup_appendEntry]

/-- Claim C2: the loader trims all three fields, drops every row with an
empty trimmed field, and keeps each host's usable rows in input order: the
plan entry of any host is exactly the trimmed (interface, description)
pairs of that host's usable rows, in order. -/
theorem loader_keeps_usable_rows_in_order (rows : List CsvRow) (h : String) :
    planLookup (load_plan rows) h =
      ((usableRows rows).filter (fun r => pyStrip r.host == h)).map
        (fun r => (pyStrip r.iface, pyStrip r.descr)) := by
  have := load_plan_fold_lookup rows [] h
  simpa [load_plan, planLookup] using this

/-! ### Configuration batch lemmas -/

theorem build_config_cmds_acc (entries : List (String × String))
    (acc : List String) :
    entries.foldl (fun cmds p => (cmds ++ ["interface " ++ p.1]) ++ [desc_cmd p.2]) acc
      = acc ++ build_config_cmds entries := by
  induction entries generalizing acc with
  | nil => simp [build_config_cmds]
  | cons p rest ih =>
    simp only [build_config_cmds, List.foldl_cons]
    rw [ih, ih (([] ++ ["interface " ++ p.1]) ++ [desc_cmd p.2])]
    simp

theorem build_config_cmds_cons (p : String × String)
    (rest : List (String × String)) :
    build_config_cmds (p :: rest) =
      ("interface " ++ p.1) :: desc_cmd p.2 :: build_config_cmds rest := by
  simp only [build_config_cmds, List.foldl_cons]
  rw [build_config_cmds_acc]
  simp [build_config_cmds]

/-- Claim C1: on trimmed entries (the loader only ever produces trimmed
fields), the batch the Configurator builds is exactly the spec's batch: per
pair in order, an enter-interface line then a description line, where a
description that case-insensitively equals `blank` clears instead of sets. -/
theorem config_batch_refines_spec (entries : List (String × String))
    (htrim : ∀ p ∈ entries, pyStrip p.2 = p.2) :
    build_config_cmds entries = spec_batch entries := by
  induction entries with
  | nil => rfl
  | cons p rest ih =>
    rw [build_config_cmds_cons]
    have hp : pyStrip p.2 = p.2 := htrim p (List.mem_cons_self p rest)
    have hrest : ∀ q ∈ rest, pyStrip q.2 = q.2 := fun q hq =>
      htrim q (List.mem_cons_of_mem p hq)
    simp [spec_batch, spec_lines_for_pair, desc_cmd, hp, ih hrest]

/-- Witness for C1 at the spec's own example: entries
`[("Gi1/0/1","PC-01"), ("Gi1/0/2","blank")]` are trimmed, and the batch
sets a description on the first interface and clears it on the second. -/
theorem config_batch_refines_spec_witness :
    (∀ p ∈ [("Gi1/0/1", "PC-01"), ("Gi1/0/2", "blank")],
        pyStrip p.2 = p.2) ∧
    build_config_cmds [("Gi1/0/1", "PC-01"), ("Gi1/0/2", "blank")] =
      spec_batch [("Gi1/0/1", "PC-01"), ("Gi1/0/2", "blank")] ∧
    spec_batch [("Gi1/0/1", "PC-01"), ("Gi1/0/2", "blank")] =
      ["interface Gi1/0/1", "description PC-01",
       "interface Gi1/0/2", "no description"] :=
  ⟨by decide,
   config_batch_refines_spec [("Gi1/0/1", "PC-01"), ("Gi1/0/2", "blank")]
     (by decide),
   by decide⟩

/-! ### Configurator error-handling lemmas -/

/-- Claim C3: whatever the device does — any operation may raise — the
Configurator always returns an outcome for its own host, and on failure the
outcome text is the `XXX ERROR on <host>: <e>` diagnostic; nothing
propagates to the caller. -/
theorem configurator_never_propagates (env : Env) (dev : DeviceBehavior)
    (host : String) (entries : List (String × String)) :
    ((configure_switch env dev host entries).1.host = host) ∧
    (((configure_switch env dev host entries).1.ok = true) ∨
      ∃ e, (configure_switch env dev host entries).1.text = err_text host e) := by
  unfold configure_switch
  cases hc : dev.connect with
  | error e => exact ⟨rfl, Or.inr ⟨e, rfl⟩⟩
  | ok u =>
    rcases hb : bodyRun env dev host entries with ⟨res, tr⟩
    cases res with
    | ok text => exact ⟨rfl, Or.inl rfl⟩
    | error e => exact ⟨rfl, Or.inr ⟨e, rfl⟩⟩

/-! ### Session close accounting -/

/-- Number of `disconnect` events in a trace. -/
def countDisc : List DEvent → Nat
  | [] => 0
  | e :: tr => (if e == DEvent.disconnect then 1 else 0) + countDisc tr

theorem countDisc_append (a b : List DEvent) :
    countDisc (a ++ b) = countDisc a + countDisc b := by
  induction a with
  | nil => simp [countDisc]
  | cons e tr ih => simp [countDisc, ih]; omega

theorem countDisc_verifyRun (dev : DeviceBehavior)
    (entries : List (String × String)) :
    countDisc (verifyRun dev entries).2 = 0 := by
  induction entries with
  | nil => rfl
  | cons p rest ih =>
    simp only [verifyRun]
    cases hq : dev.sendCommand (show_cmd p.1) with
    | error e => simp [countDisc]
    | ok out =>
      rcases hv : verifyRun dev rest with ⟨res, tr⟩
      have htr : countDisc tr = 0 := by rw [hv] at ih; exact ih
      cases res <;> simp [countDisc, htr]

theorem countDisc_bodyRun (env : Env) (dev : DeviceBehavior) (host : String)
    (entries : List (String × String)) :
    countDisc (bodyRun env dev host entries).2 = 0 := by
  unfold bodyRun
  have hen : ∀ tr ∈ [([DEvent.enable] : List DEvent), []], countDisc tr = 0 := by
    decide
  by_cases hs : truthy env.secret = true
  · simp only [hs, if_true]
    cases dev.enable with
    | error e => simp [countDisc]
    | ok u =>
      cases dev.sendConfigSet (build_config_cmds entries) with
      | error e => simp [countDisc, countDisc_append]
      | ok v =>
        cases dev.saveConfig with
        | error e => simp [countDisc, countDisc_append]
        | ok w =>
          rcases hv : verifyRun dev entries with ⟨res, tr⟩
          have htr : countDisc tr = 0 := by
            have := countDisc_verifyRun dev entries
            rw [hv] at this; exact this
          cases res <;> simp [countDisc, countDisc_append, htr]
  · simp only [Bool.not_eq_true] at hs
    simp only [hs, Bool.false_eq_true, if_false]
    cases dev.sendConfigSet (build_config_cmds entries) with
    | error e => simp [countDisc, countDisc_append]
    | ok v =>
      cases dev.saveConfig with
      | error e => simp [countDisc, countDisc_append]
      | ok w =>
        rcases hv : verifyRun dev entries with ⟨res, tr⟩
        have htr : countDisc tr = 0 := by
          have := countDisc_verifyRun dev entries
          rw [hv] at this; exact this
        cases res <;> simp [countDisc, countDisc_append, htr]

/-- C4 counterexample: when the session open itself raises, `conn` is still
`None`, the `finally` closes nothing, and the invocation performs zero
`disconnect` calls — not exactly one as the claim states for that exit path. -/
theorem session_close_count_counterexample :
    countDisc ((configure_switch env0 devFail "10.0.0.1"
        [("Gi1/0/1", "PC-01")]).2) ≠ 1 := by
  decide

/-- Claim C4 as amended: the session is closed exactly once on every exit
path on which one was opened (apply/persist/verify raising, or full
success); when the session open itself raises, no session exists and zero
closes happen. Formally: the number of `disconnect` events equals one
exactly when the trace records a successful connect. -/
theorem session_closed_iff_opened (env : Env) (dev : DeviceBehavior)
    (host : String) (entries : List (String × String)) :
    countDisc (configure_switch env dev host entries).2 =
      (if DEvent.connectOk ∈ (configure_switch env dev host entries).2
       then 1 else 0) := by
  unfold configure_switch
  cases hc : dev.connect with
  | error e => simp [countDisc]
  | ok u =>
    rcases hb : bodyRun env dev host entries with ⟨res, tr⟩
    have htr : countDisc tr = 0 := by
      have := countDisc_bodyRun env dev host entries
      rw [hb] at this; exact this
    cases res <;>
      simp [countDisc, countDisc_append, htr]

/-! ### Dispatcher and reporter lemmas -/

theorem alookup_run_all (env : Env) (devs : String → DeviceBehavior)
    (plan : HostPlan) (B : String) :
    alookup (run_all env devs plan) B =
      (alookup plan B).map (fun eB =>
        (((configure_switch env (devs B) B eB).1).ok,
         ((configure_switch env (devs B) B eB).1).text)) := by
  induction plan with
  | nil => rfl
  | cons he rest ih =>
    obtain ⟨k, entries⟩ := he
    by_cases hk : k = B
    · subst hk
      simp [run_all, host_outcome, alookup]
    · simp only [run_all, List.map_cons, host_outcome, alookup] at *
      simp [hk, ih]

theorem alookup_mem_keys {α : Type} (l : List (String × α)) (key : String)
    (v : α) (h : alookup l key = some v) : key ∈ l.map Prod.fst := by
  induction l with
  | nil => simp [alookup] at h
  | cons kv rest ih =>
    obtain ⟨k, w⟩ := kv
    by_cases hk : k = key
    · subst hk; simp
    · simp only [alookup] at h
      rw [if_neg (by simpa using hk)] at h
      simpa using Or.inr (ih h)

theorem mem_insertSorted (x y : String) (l : List String) :
    x ∈ insertSorted y l ↔ x = y ∨ x ∈ l := by
  induction l with
  | nil => simp [insertSorted]
  | cons z zs ih =>
    by_cases hz : strLe y z
    · simp [insertSorted, hz]
    · simp [insertSorted, hz, ih]
      tauto

theorem mem_sort_hosts (x : String) (results : List (String × (Bool × String))) :
    x ∈ sort_hosts results ↔ x ∈ results.map Prod.fst := by
  unfold sort_hosts
  induction results with
  | nil => simp
  | cons r rest ih =>
    simp [List.foldr_cons, mem_insertSorted, ih]

/-- Claim C5: host B's collected result is a function of host B's own device
behavior and plan entry alone — any other host failing cannot change it —
and when B's configuration succeeds the reporter's output contains B's
success marker line. -/
theorem failure_isolation (env : Env) (devs : String → DeviceBehavior)
    (plan : HostPlan) (B : String) (eB : List (String × String))
    (hB : alookup plan B = some eB) :
    alookup (run_all env devs plan) B =
      some (((configure_switch env (devs B) B eB).1).ok,
            ((configure_switch env (devs B) B eB).1).text) ∧
    (((configure_switch env (devs B) B eB).1).ok = true →
      success_line B ∈ report_lines (run_all env devs plan)) := by
  have hres : alookup (run_all env devs plan) B =
      some (((configure_switch env (devs B) B eB).1).ok,
            ((configure_switch env (devs B) B eB).1).text) := by
    rw [alookup_run_all, hB]; rfl
  refine ⟨hres, fun hok => ?_⟩
  have hmem : B ∈ (run_all env devs plan).map Prod.fst :=
    alookup_mem_keys _ _ _ hres
  have hsort : B ∈ sort_hosts (run_all env devs plan) :=
    (mem_sort_hosts B (run_all env devs plan)).mpr hmem
  apply List.mem_flatten.mpr
  refine ⟨report_block (run_all env devs plan) B, List.mem_map_of_mem _ hsort, ?_⟩
  rw [report_block, hres, hok]
  simp

/-- Witness for C5: a two-host plan where host 10.0.0.2's session open
raises while host 10.0.0.1 succeeds; 10.0.0.1's result is still collected
and its success marker is still reported. -/
theorem failure_isolation_witness :
    alookup [("10.0.0.2", [(("Gi1/0/3" : String), ("X" : String))]),
             ("10.0.0.1", [("Gi1/0/1", "PC-01")])] "10.0.0.1" =
      some [("Gi1/0/1", "PC-01")] ∧
    (alookup (run_all env0
        (fun h => if h == "10.0.0.2" then devFail else devGood)
        [("10.0.0.2", [("Gi1/0/3", "X")]), ("10.0.0.1", [("Gi1/0/1", "PC-01")])])
        "10.0.0.1" =
      some (((configure_switch env0 devGood "10.0.0.1"
               [("Gi1/0/1", "PC-01")]).1).ok,
            ((configure_switch env0 devGood "10.0.0.1"
               [("Gi1/0/1", "PC-01")]).1).text) ∧
     (((configure_switch env0 devGood "10.0.0.1"
          [("Gi1/0/1", "PC-01")]).1).ok = true →
        success_line "10.0.0.1" ∈ report_lines (run_all env0
          (fun h => if h == "10.0.0.2" then devFail else devGood)
          [("10.0.0.2", [("Gi1/0/3", "X")]),
           ("10.0.0.1", [("Gi1/0/1", "PC-01")])]))) :=
  ⟨by decide,
   failure_isolation env0 (fun h => if h == "10.0.0.2" then devFail else devGood)
     [("10.0.0.2", [("Gi1/0/3", "X")]), ("10.0.0.1", [("Gi1/0/1", "PC-01")])]
     "10.0.0.1" [("Gi1/0/1", "PC-01")] (by decide)⟩

/-! ### Plan key lemmas -/

theorem keys_appendEntry (plan : HostPlan) (host : String) (pr : String × String) :
    (appendEntry plan host pr).map Prod.fst =
      if host ∈ plan.map Prod.fst then plan.map Prod.fst
      else plan.map Prod.fst ++ [host] := by
  induction plan with
  | nil => simp [appendEntry]
  | cons kl rest ih =>
    obtain ⟨k, l⟩ := kl
    by_cases hk : k = host
    · subst hk; simp [appendEntry]
    · have hne : ¬ host = k := fun he => hk he.symm
      by_cases hm : host ∈ rest.map Prod.fst
      · simp [appendEntry, hk, ih, hm, hne]
      · simp [appendEntry, hk, ih, hm, hne]

theorem keys_load_fold_nodup (rows : List CsvRow) (plan : HostPlan)
    (hnd : (plan.map Prod.fst).Nodup) :
    ((rows.foldl load_step plan).map Prod.fst).Nodup := by
  induction rows generalizing plan with
  | nil => simpa using hnd
  | cons r rest ih =>
    simp only [List.foldl_cons]
    apply ih
    by_cases hs : row_skip r
    · simpa [load_step, hs] using hnd
    · rw [load_step, if_neg (by simpa using hs), keys_appendEntry]
      by_cases hm : pyStrip r.host ∈ plan.map Prod.fst
      · simpa [hm] using hnd
      · simp only [hm, if_false]
        simp [List.nodup_append, hnd, hm]

theorem keys_load_fold_mem (rows : List CsvRow) (plan : HostPlan) (h : String) :
    h ∈ (rows.foldl load_step plan).map Prod.fst ↔
      h ∈ plan.map Prod.fst ∨
        h ∈ (usableRows rows).map (fun r => pyStrip r.host) := by
  induction rows generalizing plan with
  | nil => simp [usableRows]
  | cons r rest ih =>
    simp only [List.foldl_cons]
    rw [ih]
    by_cases hs : row_skip r
    · simp [load_step, hs, usableRows, List.filter_cons]
    · rw [load_step, if_neg (by simpa using hs)]
      have hkeys := keys_appendEntry plan (pyStrip r.host)
        (pyStrip r.iface, pyStrip r.descr)
      by_cases hm : pyStrip r.host ∈ plan.map Prod.fst
      · rw [hkeys, if_pos hm]
        simp only [usableRows, List.filter_cons, hs]
        by_cases hh : h = pyStrip r.host
        · subst hh; simp [usableRows, hm]
        · simp [usableRows, hh]
      · rw [hkeys, if_neg hm]
        simp only [usableRows, List.filter_cons, hs]
        by_cases hh : h = pyStrip r.host
        · subst hh; simp [usableRows]
        · simp [usableRows, hh]

/-- Claim C6: the dispatcher submits exactly one Configurator task per plan
entry (same keys, in order), the plan built from the CSV has no duplicate
host key, and each unique host with a usable row is therefore processed
exactly once — never twice — whatever the pool width. -/
theorem dispatcher_once_per_unique_host (rows : List CsvRow) (env : Env)
    (devs : String → DeviceBehavior) :
    ((run_all env devs (load_plan rows)).map Prod.fst =
        (load_plan rows).map Prod.fst) ∧
    ((load_plan rows).map Prod.fst).Nodup ∧
    (∀ h : String, ((load_plan rows).map Prod.fst).count h =
        if h ∈ (usableRows rows).map (fun r => pyStrip r.host) then 1 else 0) := by
  have hkeys : (run_all env devs (load_plan rows)).map Prod.fst =
      (load_plan rows).map Prod.fst := by
    induction load_plan rows with
    | nil => rfl
    | cons he rest ih => simp [run_all, host_outcome] at *
  have hnd : ((load_plan rows).map Prod.fst).Nodup :=
    keys_load_fold_nodup rows [] (by simp)
  refine ⟨hkeys, hnd, fun h => ?_⟩
  have hmem : h ∈ (load_plan rows).map Prod.fst ↔
      h ∈ (usableRows rows).map (fun r => pyStrip r.host) := by
    have := keys_load_fold_mem rows [] h
    simpa [load_plan] using this
  by_cases hin : h ∈ (usableRows rows).map (fun r => pyStrip r.host)
  · rw [if_pos hin]
    exact List.count_eq_one_of_mem hnd (hmem.mpr hin)
  · rw [if_neg hin]
    exact List.count_eq_zero_of_not_mem (fun hc => hin (hmem.mp hc))

/-! ### Summary and pre-flight abort -/

/-- Claim C7: every collected outcome is counted as exactly one of success or
failure, so the summary's success count plus its failure count equals the
total host count it reports. -/
theorem summary_counts_partition (results : List (String × (Bool × String))) :
    (summarize results).successes + (summarize results).failures =
      (summarize results).total := by
  simp only [summarize, List.length_map]
  induction results with
  | nil => rfl
  | cons r rest ih =>
    by_cases hr : r.2.1 = true <;>
      simp [List.filter_cons, hr] <;> omega

theorem load_fold_of_no_usable (rows : List CsvRow)
    (h : usableRows rows = []) (plan : HostPlan) :
    rows.foldl load_step plan = plan := by
  induction rows generalizing plan with
  | nil => rfl
  | cons r rest ih =>
    simp only [usableRows, List.filter_cons] at h
    by_cases hs : row_skip r
    · simp only [List.foldl_cons, load_step, hs, if_true]
      exact ih (by simpa [usableRows, hs] using h) plan
    · simp [hs] at h
/-- Claim C8: with credentials present, a CSV with zero usable rows makes the
run abort with the fatal message before any network operation: the device
event trace of the whole run is empty — in particular no session open is
ever attempted. -/
theorem empty_csv_aborts_before_network (env : Env)
    (devs : String → DeviceBehavior) (rows : List CsvRow)
    (hcreds : creds_ok env = true) (hempty : usableRows rows = []) :
    (main_run env devs rows).1 =
      Except.error "No valid rows found in CSV. Check file contents." ∧
    (main_run env devs rows).2 = [] ∧
    DEvent.connectAttempt ∉ (main_run env devs rows).2 := by
  have hplan : load_plan rows = [] :=
    load_fold_of_no_usable rows hempty []
  rw [main_run, hcreds]
  simp [hplan]

/-- Witness for C8: credentials present, one CSV row whose host field is
blank; the run aborts with the fatal message and performs no device event. -/
theorem empty_csv_aborts_before_network_witness :
    creds_ok env0 = true ∧
    usableRows [{ host := " ", iface := "Gi1/0/1", descr := "PC-01" }] = [] ∧
    ((main_run env0 (fun _ => devGood)
        [{ host := " ", iface := "Gi1/0/1", descr := "PC-01" }]).1 =
      Except.error "No valid rows found in CSV. Check file contents." ∧
    (main_run env0 (fun _ => devGood)
        [{ host := " ", iface := "Gi1/0/1", descr := "PC-01" }]).2 = [] ∧
    DEvent.connectAttempt ∉ (main_run env0 (fun _ => devGood)
        [{ host := " ", iface := "Gi1/0/1", descr := "PC-01" }]).2) :=
  ⟨by decide, by decide,
   empty_csv_aborts_before_network env0 (fun _ => devGood)
     [{ host := " ", iface := "Gi1/0/1", descr := "PC-01" }]
     (by decide) (by decide)⟩

/-! ### Verification block lemmas -/

theorem verifyRun_ok (dev : DeviceBehavior)
    (hq : ∀ c, ∃ out, dev.sendCommand c = Except.ok out)
    (entries : List (String × String)) :
    ∃ tr, verifyRun dev entries = (Except.ok (verified_lines dev entries), tr) := by
  induction entries with
  | nil => exact ⟨[], rfl⟩
  | cons p rest ih =>
    obtain ⟨out, hout⟩ := hq (show_cmd p.1)
    obtain ⟨tr, htr⟩ := ih
    refine ⟨DEvent.query (show_cmd p.1) :: tr, ?_⟩
    simp [verifyRun, hout, htr, verified_lines]

theorem verified_lines_keep (dev : DeviceBehavior)
    (entries : List (String × String)) (l : String)
    (hl : l ∈ verified_lines dev entries) : keepLine l = true := by
  induction entries with
  | nil => simp [verified_lines] at hl
  | cons p rest ih =>
    simp only [verified_lines, List.mem_append] at hl
    rcases hl with hl | hl
    · cases hc : dev.sendCommand (show_cmd p.1) with
      | error e => rw [hc] at hl; simp at hl
      | ok out =>
        rw [hc] at hl
        exact List.of_mem_filter hl
    · exact ih hl

/-- Claim C9: when every device operation succeeds, the Configurator reports
success and its verification block is the header line followed, for each of
the host's interfaces in order, by exactly the kept lines of that
interface's status query — and every kept line is non-blank and not a
header line (`keepLine`). -/
theorem verification_block_contents (env : Env) (dev : DeviceBehavior)
    (host : String) (entries : List (String × String))
    (hc : dev.connect = Except.ok ())
    (hen : dev.enable = Except.ok ())
    (hset : ∀ cmds, dev.sendConfigSet cmds = Except.ok ())
    (hsave : dev.saveConfig = Except.ok ())
    (hq : ∀ c, ∃ out, dev.sendCommand c = Except.ok out) :
    ((configure_switch env dev host entries).1.ok = true) ∧
    ((configure_switch env dev host entries).1.text =
      String.intercalate "\n"
        (header_line host :: verified_lines dev entries)) ∧
    (∀ l ∈ verified_lines dev entries, keepLine l = true) := by
  obtain ⟨tr, htr⟩ := verifyRun_ok dev hq entries
  have hbody : (bodyRun env dev host entries).1 =
      Except.ok (String.intercalate "\n"
        (header_line host :: verified_lines dev entries)) := by
    unfold bodyRun
    by_cases hsec : truthy env.secret = true
    · simp [hsec, hen, hset, hsave, htr]
    · simp only [Bool.not_eq_true] at hsec
      simp [hsec, hset, hsave, htr]
  refine ⟨?_, ?_, fun l hl => verified_lines_keep dev entries l hl⟩ <;>
  · unfold configure_switch
    rw [hc]
    rcases hb : bodyRun env dev host entries with ⟨res, btr⟩
    rw [hb] at hbody
    simp only at hbody
    rw [hbody]

/-- Witness for C9: a fully successful device whose query output is a header
line plus one status line; the block is the header plus that status line. -/
theorem verification_block_contents_witness :
    ((configure_switch env0 devGood "10.0.0.1" [("Gi1/0/1", "PC-01")]).1.ok
        = true) ∧
    ((configure_switch env0 devGood "10.0.0.1" [("Gi1/0/1", "PC-01")]).1.text =
      String.intercalate "\n"
        (header_line "10.0.0.1" ::
          verified_lines devGood [("Gi1/0/1", "PC-01")])) ∧
    (∀ l ∈ verified_lines devGood [("Gi1/0/1", "PC-01")], keepLine l = true) :=
  verification_block_contents env0 devGood "10.0.0.1" [("Gi1/0/1", "PC-01")]
    rfl rfl (fun _ => rfl) rfl (fun _ => ⟨_, rfl⟩)

/-! ### Blank-sentinel lemmas -/

theorem interface_line_ne (s : String) :
    "interface " ++ s ≠ "no description" := by
  intro h
  have h2 : ("interface " ++ s).data = "no description".data := by rw [h]
  rw [String.data_append] at h2
  have h3 := congrArg List.head? h2
  have h4 : List.head? ("interface ".data ++ s.data) = some 'i' := rfl
  have h5 : List.head? "no description".data = some 'n' := rfl
  rw [h4, h5] at h3
  exact absurd h3 (by decide)

theorem descr_line_ne (s : String) :
    "description " ++ s ≠ "no description" := by
  intro h
  have h2 : ("description " ++ s).data = "no description".data := by rw [h]
  rw [String.data_append] at h2
  have h3 := congrArg List.head? h2
  have h4 : List.head? ("description ".data ++ s.data) = some 'd' := rfl
  have h5 : List.head? "no description".data = some 'n' := rfl
  rw [h4, h5] at h3
  exact absurd h3 (by decide)

/-- Claim C10: a row whose description trims to the empty string never
reaches the plan (so it produces no configuration command at all), and the
clear-description command appears in a batch exactly when some entry's
description is the sentinel `blank` (case-insensitive) — never because a
description is empty. -/
theorem blank_sentinel_semantics :
    (∀ (rows : List CsvRow) (h : String) (p : String × String),
        p ∈ planLookup (load_plan rows) h → p.2 ≠ "") ∧
    (∀ entries : List (String × String),
        "no description" ∈ build_config_cmds entries ↔
          ∃ p ∈ entries, pyLower (pyStrip p.2) = "blank") := by
  constructor
  · intro rows h p hp
    have hlk := load_plan_fold_lookup rows [] h
    rw [load_plan] at hp
    rw [hlk] at hp
    simp only [planLookup, List.nil_append] at hp
    obtain ⟨r, hr, hpr⟩ := List.mem_map.mp hp
    have hru : r ∈ usableRows rows := (List.mem_filter.mp hr).1
    have hskip : row_skip r = false := by
      have := (List.mem_filter.mp hru).2
      simpa using this
    have hdesc : ¬ (pyStrip r.descr = "") := by
      simp only [row_skip, Bool.or_eq_false_iff] at hskip
      simpa using hskip.2
    rw [← hpr]
    simpa using hdesc
  · intro entries
    induction entries with
    | nil => simp [build_config_cmds]
    | cons p rest ih =>
      rw [build_config_cmds_cons]
      simp only [List.mem_cons]
      constructor
      · rintro (h1 | h2 | h3)
        · exact absurd h1.symm (interface_line_ne p.1)
        · by_cases hb : pyLower (pyStrip p.2) = "blank"
          · exact ⟨p, Or.inl rfl, hb⟩
          · rw [desc_cmd, if_neg (by simpa using hb)] at h2
            exact absurd h2.symm (descr_line_ne p.2)
        · obtain ⟨q, hq, hqb⟩ := ih.mp h3
          exact ⟨q, Or.inr hq, hqb⟩
      · rintro ⟨q, hq, hqb⟩
        rcases hq with heq | hq'
        · subst heq
          right; left
          rw [desc_cmd, if_pos (by simpa using hqb)]
        · right; right; exact ih.mpr ⟨q, hq', hqb⟩

/-- Witness for C10: a usable row's pair sits in the plan with a non-empty
description, and the batch for a `blank` entry contains the clear line
exactly because of the sentinel. -/
theorem blank_sentinel_semantics_witness :
    (("Gi1/0/1", "PC-01") ∈
        planLookup (load_plan [{ host := "10.0.0.1", iface := "Gi1/0/1",
                                 descr := "PC-01" }]) "10.0.0.1") ∧
    (("Gi1/0/1", "PC-01") : String × String).2 ≠ "" ∧
    ("no description" ∈ build_config_cmds [("Gi1/0/2", "blank")] ↔
      ∃ p ∈ [(("Gi1/0/2" : String), ("blank" : String))],
        pyLower (pyStrip p.2) = "blank") :=
  ⟨by decide,
   blank_sentinel_semantics.1
     [{ host := "10.0.0.1", iface := "Gi1/0/1", descr := "PC-01" }]
     "10.0.0.1" ("Gi1/0/1", "PC-01") (by decide),
   blank_sentinel_semantics.2 [("Gi1/0/2", "blank")]⟩
